import Mathlib

/-!
# Ottawa Council Vote Tracker — verification development

Shallow embedding of `scraper.py` (parsing pipeline and Airtable upload
stage) together with theorems about it.

Modelling conventions:
* Python strings are Lean `String`s; character-level operations
  (`str.strip`, `str.split`, the regexes used in the tokenizer) are
  spelled out on `String.data`.
* BeautifulSoup lookups are abstracted: a minutes page is its list of
  `.AgendaItemContainer` fragments, a fragment carries optional title /
  result texts and an optional voter table, a voter table is a list of
  rows each carrying optional label / names cell texts.
* The Airtable boundary is an oracle environment: each `table.create`
  call is an attempt-indexed `Except` (an exception-raising call is an
  `.error`), each `table.all` query likewise.  The upload stage is a pure
  function from that environment to the ordered trace of create calls it
  issues, threading the councillor cache explicitly.
-/

namespace Scraper

/-! ## String helpers (Python `str.strip`, `str.split`, the regexes) -/

/-- Python `str.strip()` on the character list: drop leading and trailing
whitespace. -/
def trimChars (l : List Char) : List Char :=
  ((l.dropWhile Char.isWhitespace).reverse.dropWhile Char.isWhitespace).reverse

/-- Python `str.strip(",")`: drop leading and trailing comma characters. -/
def stripCommaEnds (l : List Char) : List Char :=
  ((l.dropWhile (fun c => c = ',')).reverse.dropWhile (fun c => c = ',')).reverse

/-- Python `str.split(",")`: split at every comma, keeping empty fragments. -/
def splitCommas : List Char → List (List Char)
  | [] => [[]]
  | c :: rest =>
    let r := splitCommas rest
    if c = ',' then [] :: r
    else
      match r with
      | [] => [[c]]
      | h :: t => (c :: h) :: t

/-- `re.sub(r"\s+", " ", n)`: each maximal whitespace run becomes one
space. -/
def collapseWs : List Char → List Char
  | [] => []
  | [c] => if c.isWhitespace then [' '] else [c]
  | c :: d :: rest =>
    if c.isWhitespace && d.isWhitespace then collapseWs (d :: rest)
    else (if c.isWhitespace then ' ' else c) :: collapseWs (d :: rest)

/-- `re.sub(r"^and\s+", "", n, flags=re.I)`: remove one leading
case-insensitive "and" followed by (greedily, all) whitespace. -/
def stripLeadingAnd (l : List Char) : List Char :=
  match l with
  | a :: n :: d :: c :: rest =>
    if a.toLower = 'a' && n.toLower = 'n' && d.toLower = 'd' && c.isWhitespace then
      rest.dropWhile Char.isWhitespace
    else l
  | _ => l

/-- Python `s.strip()` as a `String` operation. -/
def pyStrip (s : String) : String :=
  String.mk (trimChars s.data)

/-- Prefix test on character lists. -/
def isPrefixChars : List Char → List Char → Bool
  | [], _ => true
  | _ :: _, [] => false
  | a :: as, b :: bs => a == b && isPrefixChars as bs

/-- Python `s.startswith(p)`. -/
def pyStartswith (s p : String) : Bool :=
  isPrefixChars p.data s.data

/-- Substring containment on character lists (`sub in s` for Python
strings). -/
def isSubChars (sub : List Char) : List Char → Bool
  | [] => sub.isEmpty
  | c :: rest => isPrefixChars sub (c :: rest) || isSubChars sub rest

/-- Python `sub in s.lower()`: case-insensitive substring containment
(`s.lower()` lowercases character-wise). -/
def containsLower (s sub : String) : Bool :=
  isSubChars sub.data (s.data.map Char.toLower)

/-! ## Name tokenizer (`parse_voters_table` lines 123–130) -/

/-- The name tokenizer applied to one `.VotesUsers` cell text:
`raw_names = [n.strip().strip(",") for n in text.split(",") if n.strip()]`
then
`names = [re.sub(r"^and\s+", "", re.sub(r"\s+", " ", n).strip(), flags=re.I)
          for n in raw_names]`. -/
def tokenize_names (text : String) : List String :=
  let fragments := splitCommas text.data
  let raw_names :=
    (fragments.filter (fun n => !(trimChars n).isEmpty)).map
      (fun n => stripCommaEnds (trimChars n))
  (raw_names.map
      (fun n => stripLeadingAnd (trimChars (collapseWs n)))).map String.mk

/-! ## Vote-row classifier (`parse_voters_table` lines 131–134) -/

inductive VoteSide where
  | forVote
  | againstVote
  | unknown
deriving DecidableEq

/-- Classification of one `.VoterVote` label cell:
`if label.text.strip().startswith("For"): ... elif
label.text.strip().startswith("Against"): ... else skip`. -/
def classify_vote_row (labelText : String) : VoteSide :=
  if pyStartswith (pyStrip labelText) "For" then VoteSide.forVote
  else if pyStartswith (pyStrip labelText) "Against" then VoteSide.againstVote
  else VoteSide.unknown

/-! ## Motion extraction (`parse_motion_item`, `parse_voters_table`) -/

/-- One `tr` row of a `.MotionVoters` table: the optional `.VoterVote`
label cell text and the optional `.VotesUsers` names cell text (`none` =
element absent). -/
structure VoterRow where
  label : Option String
  names : Option String
deriving DecidableEq

/-- One `.AgendaItemContainer` fragment: optional `.AgendaItemTitle a`
text, optional `.MotionResult` text, optional `.MotionVoters` table. -/
structure AgendaItem where
  title : Option String
  result : Option String
  voters : Option (List VoterRow)
deriving DecidableEq

/-- A parsed motion record (the dictionary built by `parse_motion_item`). -/
structure Motion where
  title : Option String
  result : Option String
  for_names : List String
  against_names : List String
deriving DecidableEq

/-- `parse_voters_table`: iterate the rows, skip a row missing its label
or names cell, classify the label, extend the matching list with the
tokenized names. -/
def parse_voters_table (rows : List VoterRow) : List String × List String :=
  rows.foldl
    (fun acc row =>
      match row.label, row.names with
      | some lab, some ntext =>
        match classify_vote_row lab with
        | VoteSide.forVote => (acc.1 ++ tokenize_names ntext, acc.2)
        | VoteSide.againstVote => (acc.1, acc.2 ++ tokenize_names ntext)
        | VoteSide.unknown => acc
      | _, _ => acc)
    ([], [])

/-- `parse_motion_item`: absent title/result element gives `none`, absent
voter table gives two empty lists. -/
def parse_motion_item (item : AgendaItem) : Motion :=
  let lists :=
    match item.voters with
    | some rows => parse_voters_table rows
    | none => ([], [])
  { title := item.title.map pyStrip
    result := item.result.map pyStrip
    for_names := lists.1
    against_names := lists.2 }

/-- `parse_votes`: every `.AgendaItemContainer` of the page, in document
order, through `parse_motion_item` — no filtering. -/
def parse_votes (items : List AgendaItem) : List Motion :=
  items.map parse_motion_item

/-! ## Outcome normalizer (`normalize_outcome`) -/

/-- `normalize_outcome`: `if not text: return None`, then the lowercased
pass-keyword check, then the fail-keyword check, else `text.strip()`. -/
def normalize_outcome (text : Option String) : Option String :=
  match text with
  | none => none
  | some s =>
    if s = "" then none
    else if containsLower s "carried" || containsLower s "passed"
        || containsLower s "adopted" then some "Passed"
    else if containsLower s "lost" || containsLower s "failed"
        || containsLower s "not carried" then some "Failed"
    else some (pyStrip s)

/-! ## Deduplicator (`deduplicate_motions`) -/

/-- The dedup key: the (`title`, raw `result`) pair. -/
def keyOf (m : Motion) : Option String × Option String :=
  (m.title, m.result)

/-- The loop of `deduplicate_motions` with the `seen` set made explicit. -/
def dedupGo (seen : List (Option String × Option String)) :
    List Motion → List Motion
  | [] => []
  | m :: rest =>
    if keyOf m ∈ seen then dedupGo seen rest
    else m :: dedupGo (keyOf m :: seen) rest

/-- `deduplicate_motions`: keep the first motion of each (`title`,
`result`) key, preserving order. -/
def deduplicate_motions (motions : List Motion) : List Motion :=
  dedupGo [] motions

/-! ## Retry wrappers (`safe_request`, `safe_airtable_create`)

An external call is an attempt-indexed function `Nat → Except String α`:
`.ok` is a normal return, `.error` a raised exception.  `retryLoop act i
fuel` mirrors `for i in range(max_retries): try: return act() except:
...; return None` and additionally counts the attempts made. -/

def retryLoop (act : Nat → Except String α) : Nat → Nat → Option α × Nat
  | _, 0 => (none, 0)
  | i, fuel + 1 =>
    match act i with
    | Except.ok r => (some r, 1)
    | Except.error _ =>
      let rec' := retryLoop act (i + 1) fuel
      (rec'.1, rec'.2 + 1)

/-- `safe_request`: bounded attempts, `None` instead of an exception. -/
def safe_request (act : Nat → Except String α) (max_retries : Nat) : Option α :=
  (retryLoop act 0 max_retries).1

/-- Number of HTTP attempts `safe_request` issues. -/
def safe_request_attempts (act : Nat → Except String α) (max_retries : Nat) : Nat :=
  (retryLoop act 0 max_retries).2

/-- `safe_airtable_create`: bounded attempts (with backoff, irrelevant
here), `None` instead of an exception. -/
def safe_airtable_create (act : Nat → Except String α) (max_retries : Nat) :
    Option α :=
  (retryLoop act 0 max_retries).1

/-- Number of `table.create` attempts `safe_airtable_create` issues. -/
def safe_airtable_create_attempts (act : Nat → Except String α)
    (max_retries : Nat) : Nat :=
  (retryLoop act 0 max_retries).2

/-! ## Upload stage (`upload_to_airtable`, `get_or_create_councillor`) -/

/-- An Airtable record as the code uses it: just its record id. -/
structure Rec where
  id : String
deriving DecidableEq

/-- The `Meetings` payload built at lines 237–242 (`meeting.get(...)`). -/
structure MeetingPayload where
  meetingId : Option String
  committee : Option String
  date : Option String
  source : Option String
deriving DecidableEq

/-- The `Motions` payload built at lines 249–260. -/
structure MotionPayload where
  meetingRec : String
  decision : Option String
  outcome : Option String
  committee : Option String
  source : Option String
  forCount : Nat
  againstCount : Nat
deriving DecidableEq

/-- The `Votes` payload built at lines 288–295 / 307–314. -/
structure VotePayload where
  motionRec : String
  councillorRec : String
  vote : String
deriving DecidableEq

/-- One `table.create` call issued by the upload stage, tagged with its
destination table. -/
inductive CreateOp where
  | meeting (p : MeetingPayload)
  | motion (p : MotionPayload)
  | vote (p : VotePayload)
  | councillor (name : String)
deriving DecidableEq

/-- The Airtable oracle: outcomes of the queries and of each
attempt-indexed create call the upload stage can issue. -/
structure AirtableEnv where
  meetingsQuery : String → Except String (List Rec)
  meetingsCreateAttempt : MeetingPayload → Nat → Except String Rec
  motionsCreateAttempt : MotionPayload → Nat → Except String Rec
  councillorsQuery : String → Except String (List Rec)
  councillorsCreate : String → Except String Rec
  votesQuery : String → String → Except String (List Rec)
  votesCreateAttempt : VotePayload → Nat → Except String Rec

/-- The process-wide `councillor_cache`, threaded explicitly. -/
def Cache := List (String × String)

/-- `get_or_create_councillor`: empty name short-circuits, then the
cache, then the formula query, then a create; any exception inside the
`try` returns `None` without caching.  Returns the id (if any), the
updated cache, and the create calls issued. -/
def get_or_create_councillor (env : AirtableEnv) (cache : Cache)
    (name : String) : Option String × Cache × List CreateOp :=
  if name = "" then (none, cache, [])
  else
    match List.lookup name cache with
    | some idAns => (some idAns, cache, [])
    | none =>
      match env.councillorsQuery name with
      | Except.error _ => (none, cache, [])
      | Except.ok existing =>
        match existing with
        | r :: _ => (some r.id, (name, r.id) :: cache, [])
        | [] =>
          match env.councillorsCreate name with
          | Except.error _ => (none, cache, [CreateOp.councillor name])
          | Except.ok r =>
            (some r.id, (name, r.id) :: cache, [CreateOp.councillor name])

/-- `vote_exists`: the AND-formula query; an exception counts as "does
not exist". -/
def vote_exists (env : AirtableEnv) (motionId councillorId : String) : Bool :=
  match env.votesQuery motionId councillorId with
  | Except.error _ => false
  | Except.ok existing => !existing.isEmpty

/-- The per-name vote loop (lines 278–295 and 297–314): resolve the
councillor, skip on failure or on an existing vote, and create the vote
only when not in dry-run mode. -/
def upload_vote_names (env : AirtableEnv) (dry_run : Bool)
    (motionId voteVal : String) : Cache → List String → List CreateOp × Cache
  | cache, [] => ([], cache)
  | cache, name :: rest =>
    let resolved := get_or_create_councillor env cache name
    let ops1 := resolved.2.2
    let cache1 := resolved.2.1
    match resolved.1 with
    | none =>
      let tail := upload_vote_names env dry_run motionId voteVal cache1 rest
      (ops1 ++ tail.1, tail.2)
    | some cid =>
      if vote_exists env motionId cid then
        let tail := upload_vote_names env dry_run motionId voteVal cache1 rest
        (ops1 ++ tail.1, tail.2)
      else if dry_run then
        let tail := upload_vote_names env dry_run motionId voteVal cache1 rest
        (ops1 ++ tail.1, tail.2)
      else
        let p : VotePayload := ⟨motionId, cid, voteVal⟩
        let tail := upload_vote_names env dry_run motionId voteVal cache1 rest
        (ops1 ++ CreateOp.vote p :: tail.1, tail.2)

/-- The `Motions` payload for one motion under a given meeting record. -/
def motion_payload (meeting_name meeting_url : Option String)
    (meetingRecId : String) (m : Motion) : MotionPayload :=
  { meetingRec := meetingRecId
    decision := m.title
    outcome := normalize_outcome m.result
    committee := meeting_name
    source := meeting_url
    forCount := m.for_names.length
    againstCount := m.against_names.length }

/-- A meeting descriptor as the upload stage reads it (`meeting.get`
accesses), with the in-band `_dry_run` marker as a flag. -/
structure Meeting where
  id : Option String
  meetingName : Option String
  startDate : Option String
  url : Option String
  dryRunFlag : Bool
deriving DecidableEq

/-- The per-motion loop (lines 248–314): the `Motions` create is issued
unconditionally — also in dry-run mode — and a failed create skips to the
next motion. -/
def upload_motions (env : AirtableEnv) (meeting : Meeting)
    (meetingRecId : String) (dry_run : Bool) :
    Cache → List Motion → List CreateOp × Cache
  | cache, [] => ([], cache)
  | cache, m :: rest =>
    let p := motion_payload meeting.meetingName meeting.url meetingRecId m
    match safe_airtable_create (env.motionsCreateAttempt p) 3 with
    | none =>
      let tail := upload_motions env meeting meetingRecId dry_run cache rest
      (CreateOp.motion p :: tail.1, tail.2)
    | some motionRec =>
      let fors := upload_vote_names env dry_run motionRec.id "Yes" cache
        m.for_names
      let againsts := upload_vote_names env dry_run motionRec.id "No" fors.2
        m.against_names
      let tail := upload_motions env meeting meetingRecId dry_run againsts.2
        rest
      (CreateOp.motion p :: (fors.1 ++ againsts.1 ++ tail.1), tail.2)

/-- The `Meetings` payload. -/
def meeting_payload (meeting : Meeting) : MeetingPayload :=
  { meetingId := meeting.id
    committee := meeting.meetingName
    date := meeting.startDate
    source := meeting.url }

/-- `upload_to_airtable` (configured path): read the dry-run marker,
deduplicate, query for the meeting's external id (exception → `None`,
falsy like an empty result), reuse the existing record or create one, and
run the motion loop.  Returns the ordered trace of create calls and the
final councillor cache. -/
def upload_to_airtable (env : AirtableEnv) (cache : Cache)
    (meeting : Meeting) (motions : List Motion) : List CreateOp × Cache :=
  let dry_run := meeting.dryRunFlag
  let motions' := deduplicate_motions motions
  let existing : Option (List Rec) :=
    match env.meetingsQuery (meeting.id.getD "") with
    | Except.error _ => none
    | Except.ok xs => some xs
  match existing with
  | some (r :: _) => upload_motions env meeting r.id dry_run cache motions'
  | _ =>
    let p := meeting_payload meeting
    match safe_airtable_create (env.meetingsCreateAttempt p) 3 with
    | none => ([CreateOp.meeting p], cache)
    | some r =>
      let rest := upload_motions env meeting r.id dry_run cache motions'
      (CreateOp.meeting p :: rest.1, rest.2)

/-! ## Specification-side definitions and concrete fixtures -/

/-- §4.5 of the spec, word for word: keep the first occurrence, then drop
every later motion whose (`title`, raw `result`) key matches it, and
recurse. -/
def dedupSpec : List Motion → List Motion
  | [] => []
  | m :: rest =>
    m :: dedupSpec (rest.filter (fun x => !decide (keyOf x = keyOf m)))
termination_by l => l.length
decreasing_by
  simp only [List.length_cons]
  exact Nat.lt_succ_of_le (List.length_filter_le _ _)

/-- Whether a create call targets the `Meetings` table. -/
def CreateOp.isMeetingOp : CreateOp → Bool
  | CreateOp.meeting _ => true
  | _ => false

/-- A store record an existing-meeting query can return. -/
def recExist : Rec := ⟨"m_exist"⟩

/-- An all-success store oracle whose queries find nothing. -/
def envOk : AirtableEnv :=
  { meetingsQuery := fun _ => Except.ok []
    meetingsCreateAttempt := fun _ _ => Except.ok ⟨"meeting_rec_1"⟩
    motionsCreateAttempt := fun _ _ => Except.ok ⟨"motion_rec_1"⟩
    councillorsQuery := fun _ => Except.ok []
    councillorsCreate := fun _ => Except.ok ⟨"councillor_rec_1"⟩
    votesQuery := fun _ _ => Except.ok []
    votesCreateAttempt := fun _ _ => Except.ok ⟨"vote_rec_1"⟩ }

/-- Like `envOk` but the meeting query finds an existing record. -/
def envExist : AirtableEnv :=
  { envOk with meetingsQuery := fun _ => Except.ok [recExist] }

/-- A concrete meeting descriptor without the dry-run marker. -/
def meetingPlain : Meeting :=
  ⟨some "M1", some "City Council", some "2025-10-01", some "https://x", false⟩

/-- The same meeting with the `_dry_run` marker set. -/
def meetingDry : Meeting :=
  { meetingPlain with dryRunFlag := true }

/-- An agenda item with title and result but no `.MotionVoters` table. -/
def itemNoVoters : AgendaItem := ⟨some "Item 1", some "Carried", none⟩

/-- The motion `parse_motion_item` builds from `itemNoVoters`: both name
lists empty. -/
def motionEmptyVote : Motion := ⟨some "Item 1", some "Carried", [], []⟩

/-- A divided motion with a single For vote. -/
def motionDivided : Motion := ⟨some "Item 5", some "Carried", ["A. Smith"], []⟩

/-! ## Theorems -/

theorem dedupGo_sublist : ∀ (l : List Motion) (seen),
    (dedupGo seen l).Sublist l
  | [], _ => List.Sublist.refl _
  | m :: rest, seen => by
    rw [dedupGo]
    by_cases h : keyOf m ∈ seen
    · rw [if_pos h]
      exact (dedupGo_sublist rest seen).cons m
    · rw [if_neg h]
      exact (dedupGo_sublist rest (keyOf m :: seen)).cons₂ m

theorem dedupGo_idem : ∀ (l : List Motion) (seen),
    dedupGo seen (dedupGo seen l) = dedupGo seen l
  | [], _ => rfl
  | m :: rest, seen => by
    rw [dedupGo]
    by_cases h : keyOf m ∈ seen
    · rw [if_pos h]
      exact dedupGo_idem rest seen
    · rw [if_neg h, dedupGo, if_neg h, dedupGo_idem rest (keyOf m :: seen)]

theorem dedupGo_eq_spec : ∀ (l : List Motion) (seen),
    dedupGo seen l = dedupSpec (l.filter (fun x => !decide (keyOf x ∈ seen)))
  | [], _ => by simp [dedupGo, dedupSpec]
  | m :: rest, seen => by
    rw [dedupGo, List.filter_cons]
    by_cases h : keyOf m ∈ seen
    · rw [if_pos h, if_neg (by simp [h])]
      exact dedupGo_eq_spec rest seen
    · rw [if_neg h, if_pos (by simp [h])]
      simp only [dedupSpec]
      rw [List.filter_filter, dedupGo_eq_spec rest (keyOf m :: seen)]
      congr 1
      congr 1
      apply List.filter_congr
      intro x _
      by_cases hx : keyOf x = keyOf m
      · simp [hx, List.mem_cons]
      · by_cases hs : keyOf x ∈ seen <;>
          simp [hx, hs, List.mem_cons]

/-- C6: `deduplicate_motions` keeps the first occurrence of each
(`title`, raw `result`) key in order and drops every later motion with an
already-kept key (this is `dedupSpec`, the spec's wording); in
particular two motions with null title and null result are duplicates of
each other. -/
theorem C6_dedup_first_occurrence :
    (∀ l : List Motion, deduplicate_motions l = dedupSpec l) ∧
    (∀ m₁ m₂ : Motion, m₁.title = none → m₁.result = none →
      m₂.title = none → m₂.result = none →
      deduplicate_motions [m₁, m₂] = [m₁]) := by
  constructor
  · intro l
    rw [deduplicate_motions, dedupGo_eq_spec]
    congr 1
    exact List.filter_eq_self.mpr (fun a _ => by simp)
  · intro m₁ m₂ h1 h2 h3 h4
    have hk : keyOf m₂ = keyOf m₁ := by simp [keyOf, h1, h2, h3, h4]
    simp [deduplicate_motions, dedupGo, hk]

/-- Witness for `C6_dedup_first_occurrence` on two concrete motions with
null title and null result. -/
theorem C6_dedup_first_occurrence_witness :
    deduplicate_motions
      [⟨none, none, ["A. Smith"], []⟩, ⟨none, none, [], ["B. Jones"]⟩] =
      [⟨none, none, ["A. Smith"], []⟩] :=
  C6_dedup_first_occurrence.2 _ _ rfl rfl rfl rfl

/-- C10: `deduplicate_motions` is idempotent, and its output is a
subsequence of its input (same relative order, motions only dropped,
never constructed). -/
theorem C10_dedup_idempotent_sublist (l : List Motion) :
    deduplicate_motions (deduplicate_motions l) = deduplicate_motions l ∧
    (deduplicate_motions l).Sublist l :=
  ⟨dedupGo_idem l [], dedupGo_sublist l []⟩

/-- Witness for `C10_dedup_idempotent_sublist` at a concrete list. -/
theorem C10_dedup_idempotent_sublist_witness :
    deduplicate_motions
        (deduplicate_motions [⟨some "Item 5", some "Carried", [], []⟩]) =
      deduplicate_motions [⟨some "Item 5", some "Carried", [], []⟩] ∧
    (deduplicate_motions
        [⟨some "Item 5", some "Carried", [], []⟩]).Sublist
      [⟨some "Item 5", some "Carried", [], []⟩] :=
  C10_dedup_idempotent_sublist [⟨some "Item 5", some "Carried", [], []⟩]

/-- A list starting with `"Against"` cannot start with `"For"`. -/
theorem against_for_prefix_exclusive (l : List Char)
    (h : isPrefixChars "Against".data l = true) :
    isPrefixChars "For".data l = false := by
  have hA : "Against".data = ['A', 'g', 'a', 'i', 'n', 's', 't'] := rfl
  have hF : "For".data = ['F', 'o', 'r'] := rfl
  rw [hA] at h
  rw [hF]
  match l with
  | [] => simp [isPrefixChars] at h
  | c :: rest =>
    simp only [isPrefixChars, Bool.and_eq_true, beq_iff_eq] at h
    rw [← h.1]
    simp [isPrefixChars]

/-- C3 (counterexample): on `"A. Smith, B. Jones and C. Lee"` the
tokenizer does not treat the bare `"and"` as a delimiter — it returns two
names, not the three the claim predicts. -/
theorem C3_counterexample :
    tokenize_names "A. Smith, B. Jones and C. Lee" =
      ["A. Smith", "B. Jones and C. Lee"] ∧
    (tokenize_names "A. Smith, B. Jones and C. Lee" ==
      ["A. Smith", "B. Jones", "C. Lee"]) = false := by
  refine ⟨by decide, by decide⟩

/-- C3 (amended): the tokenizer splits on commas only; a standalone
`"and"` between two names is not a delimiter, and only a leading
case-insensitive `"and"` followed by whitespace is stripped from each
comma-separated fragment.  So the Oxford-comma input
`"A. Smith, B. Jones, and C. Lee"` yields the three names while
`"A. Smith, B. Jones and C. Lee"` leaves the conjunction inside the last
name. -/
theorem C3_amended_tokenizer :
    tokenize_names "A. Smith, B. Jones, and C. Lee" =
      ["A. Smith", "B. Jones", "C. Lee"] ∧
    tokenize_names "and C. Lee" = ["C. Lee"] ∧
    tokenize_names "A. Smith, B. Jones and C. Lee" =
      ["A. Smith", "B. Jones and C. Lee"] := by
  refine ⟨by decide, by decide, by decide⟩

/-- C2 (counterexample): the label `"For and against"` contains
`"against"` (case-insensitively), yet the classifier classifies it For —
the code is a case-sensitive `startswith("For")` test made first, not a
guarded substring test. -/
theorem C2_counterexample :
    containsLower "For and against" "against" = true ∧
    classify_vote_row "For and against" = VoteSide.forVote := by
  refine ⟨by decide, by decide⟩

/-- C2 (amended): the classifier is a case-sensitive prefix test on the
stripped label with `"For"` tested first: a stripped label starting with
`"For"` is classified For even when it contains `"against"`, and a
stripped label starting with `"Against"` is classified Against (never
For, since no list starts with both). -/
theorem C2_amended_classifier (label : String) :
    (pyStartswith (pyStrip label) "For" = true →
      classify_vote_row label = VoteSide.forVote) ∧
    (pyStartswith (pyStrip label) "Against" = true →
      classify_vote_row label = VoteSide.againstVote) := by
  constructor
  · intro h
    simp [classify_vote_row, h]
  · intro h
    have hnot : pyStartswith (pyStrip label) "For" = false :=
      against_for_prefix_exclusive _ h
    simp [classify_vote_row, hnot, h]

/-- Witness for `C2_amended_classifier` at concrete labels. -/
theorem C2_amended_classifier_witness :
    classify_vote_row " For (12): " = VoteSide.forVote ∧
    classify_vote_row "Against (11)" = VoteSide.againstVote :=
  ⟨(C2_amended_classifier " For (12): ").1 (by decide),
   (C2_amended_classifier "Against (11)").2 (by decide)⟩

/-- C5 (counterexample): the empty result string is falsy in Python, so
`normalize_outcome("")` returns `None`, not the trimmed original text
`""` the claim's else-branch predicts. -/
theorem C5_counterexample :
    normalize_outcome (some "") = none ∧
    (normalize_outcome (some "") == some (pyStrip "")) = false := by
  refine ⟨by decide, by decide⟩

/-- C5 (amended): the normalizer maps null input — and the empty string,
which is falsy — to null; otherwise it returns `"Passed"` if the
lowercased input contains a pass keyword (checked before the fail
keywords), else `"Failed"` if it contains a fail keyword, else the
trimmed original text unchanged. -/
theorem C5_amended_normalize :
    normalize_outcome none = none ∧
    normalize_outcome (some "") = none ∧
    (∀ s : String,
      (containsLower s "carried" = true ∨ containsLower s "passed" = true ∨
        containsLower s "adopted" = true) →
      normalize_outcome (some s) = some "Passed") ∧
    (∀ s : String,
      containsLower s "carried" = false → containsLower s "passed" = false →
      containsLower s "adopted" = false →
      (containsLower s "lost" = true ∨ containsLower s "failed" = true ∨
        containsLower s "not carried" = true) →
      normalize_outcome (some s) = some "Failed") ∧
    (∀ s : String, s ≠ "" →
      containsLower s "carried" = false → containsLower s "passed" = false →
      containsLower s "adopted" = false → containsLower s "lost" = false →
      containsLower s "failed" = false → containsLower s "not carried" = false →
      normalize_outcome (some s) = some (pyStrip s)) := by
  refine ⟨rfl, by decide, ?_, ?_, ?_⟩
  · intro s h
    have hne : s ≠ "" := by
      intro he
      subst he
      rcases h with h | h | h <;> exact absurd h (by decide)
    rcases h with h | h | h <;> simp [normalize_outcome, hne, h]
  · intro s h1 h2 h3 h
    have hne : s ≠ "" := by
      intro he
      subst he
      rcases h with h | h | h <;> exact absurd h (by decide)
    rcases h with h | h | h <;> simp [normalize_outcome, hne, h1, h2, h3, h]
  · intro s hne h1 h2 h3 h4 h5 h6
    simp [normalize_outcome, hne, h1, h2, h3, h4, h5, h6]

/-- Witness for `C5_amended_normalize` at concrete result texts. -/
theorem C5_amended_normalize_witness :
    normalize_outcome (some "Carried (10 to 2)") = some "Passed" ∧
    normalize_outcome (some "Lost") = some "Failed" ∧
    normalize_outcome (some "Deferred") = some (pyStrip "Deferred") :=
  ⟨C5_amended_normalize.2.2.1 "Carried (10 to 2)" (Or.inl (by decide)),
   C5_amended_normalize.2.2.2.1 "Lost" (by decide) (by decide) (by decide)
     (Or.inl (by decide)),
   C5_amended_normalize.2.2.2.2 "Deferred" (by decide) (by decide)
     (by decide) (by decide) (by decide) (by decide) (by decide)⟩

/-- C9: the motion extractor is total and degrades gracefully: a missing
title element yields a null title, a missing result element a null
result, and a missing voter table two empty name lists. -/
theorem C9_motion_extractor_degrades (item : AgendaItem) :
    (item.title = none → (parse_motion_item item).title = none) ∧
    (item.result = none → (parse_motion_item item).result = none) ∧
    (item.voters = none → (parse_motion_item item).for_names = [] ∧
      (parse_motion_item item).against_names = []) := by
  refine ⟨fun h => ?_, fun h => ?_, fun h => ?_⟩ <;>
    simp [parse_motion_item, h]

/-- Witness for `C9_motion_extractor_degrades` on a fragment missing all
three elements. -/
theorem C9_motion_extractor_degrades_witness :
    (parse_motion_item ⟨none, none, none⟩).title = none ∧
    (parse_motion_item ⟨none, none, none⟩).result = none ∧
    (parse_motion_item ⟨none, none, none⟩).for_names = [] ∧
    (parse_motion_item ⟨none, none, none⟩).against_names = [] :=
  ⟨(C9_motion_extractor_degrades ⟨none, none, none⟩).1 rfl,
   (C9_motion_extractor_degrades ⟨none, none, none⟩).2.1 rfl,
   ((C9_motion_extractor_degrades ⟨none, none, none⟩).2.2 rfl).1,
   ((C9_motion_extractor_degrades ⟨none, none, none⟩).2.2 rfl).2⟩

theorem retryLoop_all_fail (act : Nat → Except String α) :
    ∀ (fuel i : Nat), (∀ j, j < fuel → (act (i + j)).isOk = false) →
      retryLoop act i fuel = (none, fuel)
  | 0, _, _ => rfl
  | fuel + 1, i, h => by
    have h0 : (act i).isOk = false := by
      have := h 0 (Nat.succ_pos fuel)
      simpa using this
    rw [retryLoop]
    match hact : act i with
    | Except.ok r =>
      rw [hact] at h0
      simp [Except.isOk, Except.toBool] at h0
    | Except.error e =>
      have htail : ∀ j, j < fuel → (act (i + 1 + j)).isOk = false := by
        intro j hj
        have := h (j + 1) (Nat.succ_lt_succ hj)
        rwa [show i + (j + 1) = i + 1 + j by omega] at this
      simp [retryLoop_all_fail act fuel (i + 1) htail]

/-- C8: a create call that raises on every attempt makes exactly
`max_retries` attempts and returns `None` instead of propagating
(`safe_airtable_create`), `safe_request` behaves the same way, and the
motion loop skips the failed motion and proceeds to the rest of the
list. -/
theorem C8_retry_exhaustion :
    (∀ (act : Nat → Except String Rec) (max_retries : Nat),
      (∀ j, j < max_retries → (act j).isOk = false) →
      safe_airtable_create act max_retries = none ∧
      safe_airtable_create_attempts act max_retries = max_retries) ∧
    (∀ (act : Nat → Except String Rec) (max_retries : Nat),
      (∀ j, j < max_retries → (act j).isOk = false) →
      safe_request act max_retries = none ∧
      safe_request_attempts act max_retries = max_retries) ∧
    (∀ (env : AirtableEnv) (meeting : Meeting) (meetingRecId : String)
      (dry_run : Bool) (cache : Cache) (m : Motion) (rest : List Motion),
      (∀ j, j < 3 →
        (env.motionsCreateAttempt
          (motion_payload meeting.meetingName meeting.url meetingRecId m)
          j).isOk = false) →
      upload_motions env meeting meetingRecId dry_run cache (m :: rest) =
        (CreateOp.motion
            (motion_payload meeting.meetingName meeting.url meetingRecId m) ::
          (upload_motions env meeting meetingRecId dry_run cache rest).1,
         (upload_motions env meeting meetingRecId dry_run cache rest).2)) := by
  have key : ∀ (act : Nat → Except String Rec) (max_retries : Nat),
      (∀ j, j < max_retries → (act j).isOk = false) →
      retryLoop act 0 max_retries = (none, max_retries) := by
    intro act max_retries h
    exact retryLoop_all_fail act max_retries 0 (by simpa using h)
  refine ⟨fun act n h => ?_, fun act n h => ?_, ?_⟩
  · rw [safe_airtable_create, safe_airtable_create_attempts, key act n h]
    exact ⟨rfl, rfl⟩
  · rw [safe_request, safe_request_attempts, key act n h]
    exact ⟨rfl, rfl⟩
  · intro env meeting meetingRecId dry_run cache m rest h
    have hnone : safe_airtable_create
        (env.motionsCreateAttempt
          (motion_payload meeting.meetingName meeting.url meetingRecId m)) 3 =
        none := by
      rw [safe_airtable_create, key _ 3 h]
    rw [upload_motions, hnone]

/-- Witness for `C8_retry_exhaustion`: an always-raising create gives up
after exactly 3 attempts with `None`. -/
theorem C8_retry_exhaustion_witness :
    safe_airtable_create (fun _ => (Except.error "boom" : Except String Rec)) 3 =
      none ∧
    safe_airtable_create_attempts
      (fun _ => (Except.error "boom" : Except String Rec)) 3 = 3 :=
  C8_retry_exhaustion.1 (fun _ => Except.error "boom") 3 (by decide)

theorem get_or_create_councillor_ops (env : AirtableEnv) (cache : Cache)
    (name : String) :
    ∀ op ∈ (get_or_create_councillor env cache name).2.2,
      op = CreateOp.councillor name := by
  intro op hop
  unfold get_or_create_councillor at hop
  split at hop
  · simp at hop
  · split at hop
    · simp at hop
    · split at hop
      · simp at hop
      · split at hop
        · simp at hop
        · split at hop
          · simpa using hop
          · simpa using hop

theorem upload_vote_names_ops (env : AirtableEnv) (dry_run : Bool)
    (motionId voteVal : String) :
    ∀ (names : List String) (cache : Cache),
      ∀ op ∈ (upload_vote_names env dry_run motionId voteVal cache names).1,
        (∃ n, op = CreateOp.councillor n) ∨ (∃ p, op = CreateOp.vote p)
  | [], _ => by intro op hop; simp [upload_vote_names] at hop
  | name :: rest, cache => by
    intro op hop
    rw [upload_vote_names] at hop
    have hops1 : ∀ o ∈ (get_or_create_councillor env cache name).2.2,
        o = CreateOp.councillor name :=
      get_or_create_councillor_ops env cache name
    match hr : (get_or_create_councillor env cache name).1 with
    | none =>
      rw [hr] at hop
      dsimp only at hop
      simp only [List.mem_append] at hop
      rcases hop with hop | hop
      · exact Or.inl ⟨name, hops1 op hop⟩
      · exact upload_vote_names_ops env dry_run motionId voteVal rest
          (get_or_create_councillor env cache name).2.1 op hop
    | some cid =>
      rw [hr] at hop
      dsimp only at hop
      by_cases hv : vote_exists env motionId cid = true
      · rw [if_pos hv] at hop
        simp only [List.mem_append] at hop
        rcases hop with hop | hop
        · exact Or.inl ⟨name, hops1 op hop⟩
        · exact upload_vote_names_ops env dry_run motionId voteVal rest
            (get_or_create_councillor env cache name).2.1 op hop
      · rw [if_neg hv] at hop
        by_cases hd : dry_run = true
        · rw [if_pos hd] at hop
          simp only [List.mem_append] at hop
          rcases hop with hop | hop
          · exact Or.inl ⟨name, hops1 op hop⟩
          · exact upload_vote_names_ops env dry_run motionId voteVal rest
              (get_or_create_councillor env cache name).2.1 op hop
        · rw [if_neg hd] at hop
          simp only [List.mem_append, List.mem_cons] at hop
          rcases hop with hop | hop | hop
          · exact Or.inl ⟨name, hops1 op hop⟩
          · exact Or.inr ⟨_, hop⟩
          · exact upload_vote_names_ops env dry_run motionId voteVal rest
              (get_or_create_councillor env cache name).2.1 op hop

theorem upload_motions_ops (env : AirtableEnv) (meeting : Meeting)
    (meetingRecId : String) (dry_run : Bool) :
    ∀ (motions : List Motion) (cache : Cache),
      ∀ op ∈ (upload_motions env meeting meetingRecId dry_run cache motions).1,
        (∃ p, op = CreateOp.motion p ∧ p.meetingRec = meetingRecId) ∨
        (∃ n, op = CreateOp.councillor n) ∨ (∃ p, op = CreateOp.vote p)
  | [], _ => by intro op hop; simp [upload_motions] at hop
  | m :: rest, cache => by
    intro op hop
    rw [upload_motions] at hop
    match hc : safe_airtable_create
        (env.motionsCreateAttempt
          (motion_payload meeting.meetingName meeting.url meetingRecId m)) 3 with
    | none =>
      rw [hc] at hop
      simp only [List.mem_cons] at hop
      rcases hop with hop | hop
      · exact Or.inl ⟨_, hop, rfl⟩
      · exact upload_motions_ops env meeting meetingRecId dry_run rest cache
          op hop
    | some motionRec =>
      rw [hc] at hop
      simp only [List.mem_cons, List.mem_append] at hop
      rcases hop with hop | (hop | hop) | hop
      · exact Or.inl ⟨_, hop, rfl⟩
      · exact Or.inr (upload_vote_names_ops env dry_run motionRec.id "Yes"
          m.for_names cache op hop)
      · exact Or.inr (upload_vote_names_ops env dry_run motionRec.id "No"
          m.against_names _ op hop)
      · exact upload_motions_ops env meeting meetingRecId dry_run rest _ op hop

/-- C7: when the meeting-id query finds an existing record, the upload
issues no `Meetings` create at all and links every `Motions` payload to
the existing record's id, so re-running the upload leaves a single
Meeting record. -/
theorem C7_meeting_idempotent (env : AirtableEnv) (cache : Cache)
    (meeting : Meeting) (motions : List Motion) (r : Rec) (rs : List Rec)
    (h : env.meetingsQuery (meeting.id.getD "") = Except.ok (r :: rs)) :
    ((upload_to_airtable env cache meeting motions).1.all
      (fun op => !op.isMeetingOp)) = true ∧
    (∀ p, CreateOp.motion p ∈ (upload_to_airtable env cache meeting motions).1 →
      p.meetingRec = r.id) := by
  have hform : upload_to_airtable env cache meeting motions =
      upload_motions env meeting r.id meeting.dryRunFlag cache
        (deduplicate_motions motions) := by
    rw [upload_to_airtable, h]
  rw [hform]
  constructor
  · rw [List.all_eq_true]
    intro op hop
    rcases upload_motions_ops env meeting r.id meeting.dryRunFlag
        (deduplicate_motions motions) cache op hop with
      ⟨p, hp, _⟩ | ⟨n, hn⟩ | ⟨p, hp⟩
    · simp [hp, CreateOp.isMeetingOp]
    · simp [hn, CreateOp.isMeetingOp]
    · simp [hp, CreateOp.isMeetingOp]
  · intro p hp
    rcases upload_motions_ops env meeting r.id meeting.dryRunFlag
        (deduplicate_motions motions) cache _ hp with
      ⟨q, hq, hqid⟩ | ⟨n, hn⟩ | ⟨q, hq⟩
    · cases hq; exact hqid
    · cases hn
    · cases hq

/-- Witness for `C7_meeting_idempotent`: with an existing meeting record
in the store, a concrete upload's trace contains no `Meetings` create. -/
theorem C7_meeting_idempotent_witness :
    ((upload_to_airtable envExist [] meetingPlain [motionDivided]).1.all
      (fun op => !op.isMeetingOp)) = true :=
  (C7_meeting_idempotent envExist [] meetingPlain [motionDivided]
    recExist [] rfl).1

theorem upload_motions_has_motion_op (env : AirtableEnv) (meeting : Meeting)
    (meetingRecId : String) (dry_run : Bool) :
    ∀ (motions : List Motion) (cache : Cache), ∀ m ∈ motions,
      CreateOp.motion
          (motion_payload meeting.meetingName meeting.url meetingRecId m) ∈
        (upload_motions env meeting meetingRecId dry_run cache motions).1
  | [], _ => by intro m hm; simp at hm
  | m₀ :: rest, cache => by
    intro m hm
    rw [upload_motions]
    rcases List.mem_cons.mp hm with hm | hm
    · subst hm
      match safe_airtable_create
          (env.motionsCreateAttempt
            (motion_payload meeting.meetingName meeting.url meetingRecId m)) 3 with
      | none => exact List.mem_cons_self _ _
      | some motionRec => exact List.mem_cons_self _ _
    · match safe_airtable_create
          (env.motionsCreateAttempt
            (motion_payload meeting.meetingName meeting.url meetingRecId m₀)) 3 with
      | none =>
        exact List.mem_cons_of_mem _
          (upload_motions_has_motion_op env meeting meetingRecId dry_run rest
            cache m hm)
      | some motionRec =>
        refine List.mem_cons_of_mem _ ?_
        refine List.mem_append.mpr (Or.inr ?_)
        exact upload_motions_has_motion_op env meeting meetingRecId dry_run rest
          _ m hm

/-- C1 (amended): no stage filters out motions with two empty name
lists — the list handed onward is exactly `deduplicate_motions` of the
parsed motions, and (here on the existing-meeting path) every motion of
that list, divided or not, gets a `Motions` create call. -/
theorem C1_amended_no_empty_vote_filter (env : AirtableEnv) (cache : Cache)
    (meeting : Meeting) (motions : List Motion) (r : Rec) (rs : List Rec)
    (h : env.meetingsQuery (meeting.id.getD "") = Except.ok (r :: rs)) :
    ∀ m ∈ deduplicate_motions motions,
      CreateOp.motion
          (motion_payload meeting.meetingName meeting.url r.id m) ∈
        (upload_to_airtable env cache meeting motions).1 := by
  intro m hm
  have hform : upload_to_airtable env cache meeting motions =
      upload_motions env meeting r.id meeting.dryRunFlag cache
        (deduplicate_motions motions) := by
    rw [upload_to_airtable, h]
  rw [hform]
  exact upload_motions_has_motion_op env meeting r.id meeting.dryRunFlag
    (deduplicate_motions motions) cache m hm

/-- Witness for `C1_amended_no_empty_vote_filter`: a motion with both
name lists empty reaches the store as a `Motions` create with For Count
and Against Count both 0. -/
theorem C1_amended_no_empty_vote_filter_witness :
    CreateOp.motion
        (motion_payload meetingPlain.meetingName meetingPlain.url
          recExist.id motionEmptyVote) ∈
      (upload_to_airtable envExist [] meetingPlain [motionEmptyVote]).1 ∧
    motionEmptyVote.for_names = [] ∧ motionEmptyVote.against_names = [] :=
  ⟨C1_amended_no_empty_vote_filter envExist [] meetingPlain [motionEmptyVote]
      recExist [] rfl motionEmptyVote (by decide),
   rfl, rfl⟩

/-- C1 (counterexample): a parsed page whose only agenda item has no
voter table produces a motion with two empty name lists, that motion
survives deduplication, and `upload_to_airtable` still issues a `Motions`
create for it (For Count 0, Against Count 0) — nothing excludes it from
the final list. -/
theorem C1_counterexample :
    parse_votes [itemNoVoters] = [motionEmptyVote] ∧
    motionEmptyVote.for_names = [] ∧
    motionEmptyVote.against_names = [] ∧
    deduplicate_motions [motionEmptyVote] = [motionEmptyVote] ∧
    CreateOp.motion
        (motion_payload meetingPlain.meetingName meetingPlain.url
          "meeting_rec_1" motionEmptyVote) ∈
      (upload_to_airtable envOk [] meetingPlain [motionEmptyVote]).1 ∧
    (motion_payload meetingPlain.meetingName meetingPlain.url
      "meeting_rec_1" motionEmptyVote).forCount = 0 ∧
    (motion_payload meetingPlain.meetingName meetingPlain.url
      "meeting_rec_1" motionEmptyVote).againstCount = 0 := by
  refine ⟨by decide, rfl, rfl, by decide, by decide, rfl, rfl⟩

/-- C4: with the dry-run marker set, `upload_to_airtable` still creates
the Meeting record, the Motion record and the Councillor record — only
the `Votes` create is skipped.  The trace below contains a `Meetings`, a
`Motions` and a `Councillor` create and no `Votes` create, contradicting
the documented "do not write to Airtable" dry-run contract. -/
theorem C4_dry_run_still_creates :
    meetingDry.dryRunFlag = true ∧
    (upload_to_airtable envOk [] meetingDry [motionDivided]).1 =
      [CreateOp.meeting (meeting_payload meetingDry),
       CreateOp.motion
         (motion_payload meetingDry.meetingName meetingDry.url
           "meeting_rec_1" motionDivided),
       CreateOp.councillor "A. Smith"] := by
  refine ⟨rfl, by decide⟩

end Scraper
